import Mathlib

/-
Verification of the request-handling contract of the azure-function-chat-api
repository. The handlers in function_app.py and the deployment validation in
build.py are shallowly embedded as Lean functions; the theorems below settle
the specified properties against them.
-/

namespace ChatApi

/-- JSON values as decoded by Python's json.loads. Numbers are modelled as
integers (the repository's payloads use only strings and small integers);
objects keep the decoded key/value pairs in order. -/
inductive Json where
  | null : Json
  | bool (b : Bool) : Json
  | num (n : Int) : Json
  | str (s : String) : Json
  | arr (elems : List Json) : Json
  | obj (fields : List (String × Json)) : Json

/-- Lookup in a decoded JSON object, matching a Python dict built by
json.loads: a duplicated key keeps its last occurrence. -/
def objFind (fields : List (String × Json)) (key : String) : Option Json :=
  fields.foldl (fun acc kv => if kv.1 = key then some kv.2 else acc) none

/-- Python dict.get(key, default) on a decoded JSON object. -/
def objGet (fields : List (String × Json)) (key : String) (d : Json) : Json :=
  (objFind fields key).getD d

/-- Python truthiness of a decoded JSON value, as tested by `if not message`. -/
def truthy : Json → Bool
  | .null => false
  | .bool b => b
  | .num n => n != 0
  | .str s => s != ""
  | .arr xs => !xs.isEmpty
  | .obj fs => !fs.isEmpty

/-- The single-quote character, used by Python repr of strings. -/
def squote : Char := Char.ofNat 39

/-- The double-quote character. -/
def dquote : Char := Char.ofNat 34

/-- Python repr escaping of one character inside a quoted string: backslash,
the active quote, newline, carriage return and tab are escaped (further
non-printable escapes are outside the modelled payloads). -/
def pyEscape (q : Char) (c : Char) : String :=
  if c = '\\' then String.mk ['\\', '\\']
  else if c = q then String.mk ['\\', q]
  else if c = Char.ofNat 10 then String.mk ['\\', 'n']
  else if c = Char.ofNat 13 then String.mk ['\\', 'r']
  else if c = Char.ofNat 9 then String.mk ['\\', 't']
  else c.toString

/-- Python repr of a string with a given quote character. -/
def pyQuoteWith (q : Char) (s : String) : String :=
  q.toString ++ String.join (s.toList.map (pyEscape q)) ++ q.toString

/-- Python repr of a string: single quotes by default, double quotes when the
string contains a single quote but no double quote. -/
def pyQuote (s : String) : String :=
  if s.contains squote && !s.contains dquote then pyQuoteWith dquote s
  else pyQuoteWith squote s

mutual

/-- Python repr of a decoded JSON value. -/
def pyRepr : Json → String
  | .null => "None"
  | .bool true => "True"
  | .bool false => "False"
  | .num n => toString n
  | .str s => pyQuote s
  | .arr xs => "[" ++ pyReprElems xs ++ "]"
  | .obj fs => "\x7b" ++ pyReprFields fs ++ "\x7d"

/-- Comma-separated reprs of the elements of a decoded JSON array. -/
def pyReprElems : List Json → String
  | [] => ""
  | [j] => pyRepr j
  | j :: rest => pyRepr j ++ ", " ++ pyReprElems rest

/-- Comma-separated `key: value` reprs of the fields of a decoded JSON object. -/
def pyReprFields : List (String × Json) → String
  | [] => ""
  | [kv] => pyQuote kv.1 ++ ": " ++ pyRepr kv.2
  | kv :: rest => pyQuote kv.1 ++ ": " ++ pyRepr kv.2 ++ ", " ++ pyReprFields rest

end

/-- Python str() of a decoded JSON value, as interpolated by the f-string
`f"Echo: \x7bmessage\x7d"`: a string renders as itself, everything else as
its repr. -/
def pyStr : Json → String
  | .str s => s
  | j => pyRepr j

/-- Outcome of req.get_json(): parseFailed when the body is not valid JSON
(the call raises ValueError), parsed j when it decodes to the value j. -/
inductive ParsedBody where
  | parseFailed : ParsedBody
  | parsed (j : Json) : ParsedBody

/-- A func.HttpResponse as the handlers build it: status code, the JSON value
passed to json.dumps as body, and the mimetype. -/
structure HttpResponse where
  status_code : Nat
  body : Json
  mimetype : String

/-- Field of a response body when the body is a JSON object. -/
def HttpResponse.field (r : HttpResponse) (key : String) : Option Json :=
  match r.body with
  | .obj fields => objFind fields key
  | _ => none

/-- Shallow embedding of chat_api from function_app.py. The request is given
by the outcome of req.get_json() and the timestamp by `now` (the value of
datetime.utcnow().isoformat() at response construction). When the decoded
body is not a dict, the attribute access req_body.get raises AttributeError,
which only the generic `except Exception` branch catches, yielding 500;
a ValueError from parsing yields 400 "Invalid JSON format". -/
def chat_api (reqBody : ParsedBody) (now : String) : HttpResponse :=
  match reqBody with
  | .parseFailed =>
      ⟨400, .obj [("error", .str "Invalid JSON format"),
                  ("timestamp", .str now)], "application/json"⟩
  | .parsed (.obj fields) =>
      let message := objGet fields "message" (.str "")
      let user_id := objGet fields "user_id" (.str "anonymous")
      if !truthy message then
        ⟨400, .obj [("error", .str "Message field is required"),
                    ("timestamp", .str now)], "application/json"⟩
      else
        ⟨200, .obj [("status", .str "success"),
                    ("user_id", user_id),
                    ("message_received", message),
                    ("response", .str ("Echo: " ++ pyStr message)),
                    ("timestamp", .str now)], "application/json"⟩
  | .parsed _ =>
      ⟨500, .obj [("error", .str "Internal server error"),
                  ("timestamp", .str now)], "application/json"⟩

/-- Shallow embedding of health_check from function_app.py: the request
content `req` is ignored, and the current timestamp is `now`. -/
def health_check (req : String) (now : String) : HttpResponse :=
  let _ := req
  ⟨200, .obj [("status", .str "healthy"),
              ("timestamp", .str now)], "application/json"⟩

/-- Outcome of az_deploy in build.py: exitWith records a sys.exit with the
given code after printing the given error message, before az_package or the
az CLI runs; deployed records that packaging ran and the az CLI was invoked
with the given resource group and function app name. -/
inductive DeployOutcome where
  | exitWith (code : Nat) (errMsg : String) : DeployOutcome
  | deployed (resource_group function_app : String) : DeployOutcome
  deriving DecidableEq, Repr

/-- Shallow embedding of az_deploy from build.py: a falsy (empty) or
placeholder function app name or resource group causes sys.exit(1) before
any packaging; otherwise az_package runs and the az CLI deploys. -/
def az_deploy (function_app_name resource_group : String) : DeployOutcome :=
  if function_app_name = "" ∨ function_app_name = "your-function-app-name" then
    .exitWith 1 "FUNCTION_APP_NAME not set"
  else if resource_group = "" ∨ resource_group = "your-resource-group" then
    .exitWith 1 "RESOURCE_GROUP not set"
  else
    .deployed resource_group function_app_name

/-- Python `args.x or os.environ.get(NAME, default)` as used by main in
build.py: a missing or empty CLI argument falls through to the environment
variable, and a missing environment variable falls through to the
placeholder default. -/
def resolveArg (cli : Option String) (env : Option String) (d : String) : String :=
  match cli with
  | some s => if s = "" then env.getD d else s
  | none => env.getD d

/-- Shallow embedding of the az-deploy branch of main in build.py: the CLI
arguments and environment variables are resolved, then az_deploy runs. -/
def main_az_deploy (cliApp cliRg envApp envRg : Option String) : DeployOutcome :=
  az_deploy (resolveArg cliApp envApp "your-function-app-name")
            (resolveArg cliRg envRg "your-resource-group")

end ChatApi

namespace ChatApi

/-- Helper: when the decoded body is not a dict, the attribute access
req_body.get raises AttributeError and chat_api reaches the generic
exception handler, building the 500 response. -/
theorem chat_api_parsed_not_obj (j : Json) (now : String)
    (h : ∀ fields, j ≠ .obj fields) :
    chat_api (.parsed j) now =
      ⟨500, .obj [("error", .str "Internal server error"),
                  ("timestamp", .str now)], "application/json"⟩ := by
  cases j
  case obj fields => exact absurd rfl (h fields)
  all_goals rfl

/-- C1: for every non-empty string m and every string u, a POST whose body is
the JSON object with message m and user_id u yields HTTP 200 with status
"success", user_id u, message_received m, and response "Echo: " ++ m. -/
theorem chat_echo_success (m u now : String) (hm : m ≠ "") :
    chat_api (.parsed (.obj [("message", .str m), ("user_id", .str u)])) now =
      ⟨200, .obj [("status", .str "success"),
                  ("user_id", .str u),
                  ("message_received", .str m),
                  ("response", .str ("Echo: " ++ m)),
                  ("timestamp", .str now)], "application/json"⟩ := by
  simp [chat_api, objGet, objFind, truthy, pyStr, hm]

/-- Witness for C1 at the concrete scenario from the spec. -/
theorem chat_echo_success_witness :
    chat_api (.parsed (.obj [("message", .str "Hello, Azure!"),
                             ("user_id", .str "test_user_123")])) "t" =
      ⟨200, .obj [("status", .str "success"),
                  ("user_id", .str "test_user_123"),
                  ("message_received", .str "Hello, Azure!"),
                  ("response", .str "Echo: Hello, Azure!"),
                  ("timestamp", .str "t")], "application/json"⟩ :=
  chat_echo_success "Hello, Azure!" "test_user_123" "t" (by decide)

/-- C2: a POST whose body is a JSON object in which the message field is
absent or the empty string yields HTTP 400 with error
"Message field is required". -/
theorem chat_missing_message_400 (fields : List (String × Json)) (now : String)
    (h : objFind fields "message" = none ∨
         objFind fields "message" = some (.str "")) :
    chat_api (.parsed (.obj fields)) now =
      ⟨400, .obj [("error", .str "Message field is required"),
                  ("timestamp", .str now)], "application/json"⟩ := by
  rcases h with h | h <;> simp [chat_api, objGet, h, truthy]

/-- Witness for C2 at a body with no message field. -/
theorem chat_missing_message_400_witness :
    chat_api (.parsed (.obj [("user_id", .str "u")])) "t" =
      ⟨400, .obj [("error", .str "Message field is required"),
                  ("timestamp", .str "t")], "application/json"⟩ :=
  chat_missing_message_400 [("user_id", .str "u")] "t" (Or.inl rfl)

/-- C3: a POST whose body cannot be parsed as JSON yields HTTP 400 with error
"Invalid JSON format". -/
theorem chat_invalid_json_400 (now : String) :
    chat_api .parseFailed now =
      ⟨400, .obj [("error", .str "Invalid JSON format"),
                  ("timestamp", .str now)], "application/json"⟩ := rfl

/-- C4: a POST whose body is valid JSON whose top-level value is not an
object yields HTTP 500 with error "Internal server error", not HTTP 400. -/
theorem chat_non_object_500 (j : Json) (now : String)
    (h : ∀ fields, j ≠ .obj fields) :
    (chat_api (.parsed j) now).status_code = 500 ∧
    (chat_api (.parsed j) now).status_code ≠ 400 ∧
    (chat_api (.parsed j) now).field "error" =
      some (.str "Internal server error") := by
  rw [chat_api_parsed_not_obj j now h]
  refine ⟨rfl, ?_, rfl⟩
  show (500 : Nat) ≠ 400
  decide

/-- Witness for C4 at a bare JSON string body. -/
theorem chat_non_object_500_witness :
    (chat_api (.parsed (.str "plain")) "t").status_code = 500 ∧
    (chat_api (.parsed (.str "plain")) "t").status_code ≠ 400 ∧
    (chat_api (.parsed (.str "plain")) "t").field "error" =
      some (.str "Internal server error") :=
  chat_non_object_500 (.str "plain") "t" (fun _ h => Json.noConfusion h)

/-- C5: on an unexpected exception (any decoded body that is not a dict) the
response is HTTP 500 with the fixed error text "Internal server error",
independent of the particular failing input. -/
theorem chat_unexpected_error_uniform (j1 j2 : Json) (now : String)
    (h1 : ∀ fields, j1 ≠ .obj fields) (h2 : ∀ fields, j2 ≠ .obj fields) :
    chat_api (.parsed j1) now = chat_api (.parsed j2) now ∧
    (chat_api (.parsed j1) now).status_code = 500 ∧
    (chat_api (.parsed j1) now).field "error" =
      some (.str "Internal server error") := by
  rw [chat_api_parsed_not_obj j1 now h1, chat_api_parsed_not_obj j2 now h2]
  exact ⟨rfl, rfl, rfl⟩

/-- Witness for C5 at two distinct non-object bodies. -/
theorem chat_unexpected_error_uniform_witness :
    chat_api (.parsed (.arr [])) "t" = chat_api (.parsed (.num 7)) "t" ∧
    (chat_api (.parsed (.arr [])) "t").status_code = 500 ∧
    (chat_api (.parsed (.arr [])) "t").field "error" =
      some (.str "Internal server error") :=
  chat_unexpected_error_uniform (.arr []) (.num 7) "t"
    (fun _ h => Json.noConfusion h) (fun _ h => Json.noConfusion h)

/-- C6: chat_api is total with status 200, 400 or 500, and every non-200
response body is a JSON object with exactly the fields error and timestamp. -/
theorem chat_api_total_uniform_errors (b : ParsedBody) (now : String) :
    ((chat_api b now).status_code = 200 ∨ (chat_api b now).status_code = 400 ∨
      (chat_api b now).status_code = 500) ∧
    ((chat_api b now).status_code ≠ 200 →
      ∃ e, (chat_api b now).body =
        .obj [("error", .str e), ("timestamp", .str now)]) := by
  cases b with
  | parseFailed =>
      exact ⟨Or.inr (Or.inl rfl), fun _ => ⟨"Invalid JSON format", rfl⟩⟩
  | parsed j =>
      cases j
      case obj fields =>
        simp only [chat_api]
        split
        · exact ⟨Or.inr (Or.inl rfl), fun _ => ⟨"Message field is required", rfl⟩⟩
        · exact ⟨Or.inl rfl, fun hne => absurd rfl hne⟩
      all_goals
        exact ⟨Or.inr (Or.inr rfl), fun _ => ⟨"Internal server error", rfl⟩⟩

/-- Witness for C6 at a concrete input with a non-200 outcome. -/
theorem chat_api_total_uniform_errors_witness :
    ((chat_api .parseFailed "t").status_code = 200 ∨
      (chat_api .parseFailed "t").status_code = 400 ∨
      (chat_api .parseFailed "t").status_code = 500) ∧
    ((chat_api .parseFailed "t").status_code ≠ 200 →
      ∃ e, (chat_api .parseFailed "t").body =
        .obj [("error", .str e), ("timestamp", .str "t")]) :=
  chat_api_total_uniform_errors .parseFailed "t"

/-- C7: a POST whose body is a JSON object with a non-empty message string
and no user_id field yields HTTP 200 with user_id "anonymous". -/
theorem chat_default_user_anonymous (fields : List (String × Json))
    (m now : String)
    (hm : objFind fields "message" = some (.str m)) (hne : m ≠ "")
    (hu : objFind fields "user_id" = none) :
    (chat_api (.parsed (.obj fields)) now).status_code = 200 ∧
    (chat_api (.parsed (.obj fields)) now).field "user_id" =
      some (.str "anonymous") := by
  have hmsg : objGet fields "message" (.str "") = .str m := by
    rw [objGet, hm]; rfl
  have huid : objGet fields "user_id" (.str "anonymous") = .str "anonymous" := by
    rw [objGet, hu]; rfl
  simp [chat_api, hmsg, huid, truthy, hne, HttpResponse.field, objFind]

/-- Witness for C7 at a body carrying only a message. -/
theorem chat_default_user_anonymous_witness :
    (chat_api (.parsed (.obj [("message", .str "hi")])) "t").status_code = 200 ∧
    (chat_api (.parsed (.obj [("message", .str "hi")])) "t").field "user_id" =
      some (.str "anonymous") :=
  chat_default_user_anonymous [("message", .str "hi")] "hi" "t" rfl (by decide) rfl

/-- C8: health_check ignores the request content and always returns HTTP 200
with status "healthy" and a timestamp field. -/
theorem health_check_always_healthy (req now : String) :
    health_check req now =
      ⟨200, .obj [("status", .str "healthy"),
                  ("timestamp", .str now)], "application/json"⟩ := rfl

/-- C9: when the function app name or resource group resolves to the empty
string or its placeholder (in particular when both the CLI argument and the
environment variable are unset), the az-deploy command exits with code 1 and
an error message, performing no packaging or deployment. -/
theorem az_deploy_rejects_unset_or_placeholder
    (cliApp cliRg envApp envRg : Option String)
    (h : resolveArg cliApp envApp "your-function-app-name" = ""
       ∨ resolveArg cliApp envApp "your-function-app-name" = "your-function-app-name"
       ∨ resolveArg cliRg envRg "your-resource-group" = ""
       ∨ resolveArg cliRg envRg "your-resource-group" = "your-resource-group") :
    ∃ msg, main_az_deploy cliApp cliRg envApp envRg = .exitWith 1 msg := by
  have key : ∀ a r : String,
      (a = "" ∨ a = "your-function-app-name" ∨
       r = "" ∨ r = "your-resource-group") →
      ∃ msg, az_deploy a r = .exitWith 1 msg := by
    intro a r har
    unfold az_deploy
    by_cases h1 : a = "" ∨ a = "your-function-app-name"
    · exact ⟨_, if_pos h1⟩
    · have h2 : r = "" ∨ r = "your-resource-group" := by tauto
      rw [if_neg h1, if_pos h2]
      exact ⟨_, rfl⟩
  exact key _ _ h

/-- Witness for C9 with both CLI arguments and environment variables unset. -/
theorem az_deploy_rejects_witness :
    ∃ msg, main_az_deploy none none none none = .exitWith 1 msg :=
  az_deploy_rejects_unset_or_placeholder none none none none
    (Or.inr (Or.inl rfl))

/-- C10: message validation is Python truthiness: a falsy message value
(such as 0, false, null or "") yields HTTP 400 "Message field is required",
and a truthy message value yields HTTP 200 with response "Echo: " followed by
the value's str() rendering. -/
theorem chat_message_truthiness (fields : List (String × Json)) (m : Json)
    (now : String) (hm : objFind fields "message" = some m) :
    (truthy m = false →
      chat_api (.parsed (.obj fields)) now =
        ⟨400, .obj [("error", .str "Message field is required"),
                    ("timestamp", .str now)], "application/json"⟩) ∧
    (truthy m = true →
      (chat_api (.parsed (.obj fields)) now).status_code = 200 ∧
      (chat_api (.parsed (.obj fields)) now).field "response" =
        some (.str ("Echo: " ++ pyStr m))) := by
  have hmsg : objGet fields "message" (.str "") = m := by
    rw [objGet, hm]; rfl
  constructor
  · intro hf
    simp [chat_api, hmsg, hf]
  · intro ht
    simp [chat_api, hmsg, ht, HttpResponse.field, objFind]

/-- Witness for C10: message 0 is rejected with 400, message 42 echoes as
"Echo: 42". -/
theorem chat_message_truthiness_witness :
    chat_api (.parsed (.obj [("message", .num 0)])) "t" =
      ⟨400, .obj [("error", .str "Message field is required"),
                  ("timestamp", .str "t")], "application/json"⟩ ∧
    (chat_api (.parsed (.obj [("message", .num 42)])) "t").field "response" =
      some (.str "Echo: 42") :=
  ⟨(chat_message_truthiness [("message", .num 0)] (.num 0) "t" rfl).1 rfl,
   ((chat_message_truthiness [("message", .num 42)] (.num 42) "t" rfl).2 rfl).2⟩

end ChatApi
